import Mathlib

/-!
Verification of the newsy diary-processing pipeline (`process_diary.py`,
`summary_generator.py`) against its natural-language specification.

The Python sources are shallowly embedded: pure functions become Lean
functions, the asynchronous enrichment pass becomes an explicit map over
fetch outcomes, and fallible operations return `Option`/`Except`.
-/

namespace Newsy

/-- Whether `pat` is a prefix of `l`. -/
def listPrefix : List Char → List Char → Bool
  | [], _ => true
  | _ :: _, [] => false
  | a :: pat, b :: l => a = b && listPrefix pat l

/-- Whether `pat` occurs as a contiguous sublist of `l`. -/
def listInfix (pat : List Char) : List Char → Bool
  | [] => listPrefix pat []
  | c :: l => listPrefix pat (c :: l) || listInfix pat l

/-- Python's substring test `pat in s`. -/
def strContains (s pat : String) : Bool :=
  listInfix pat.data s.data

/-- Python's `str.lower()` (ASCII, which covers every pattern and fixture
here). -/
def strLower (s : String) : String :=
  String.mk (s.data.map Char.toLower)

/-- Python's `str.strip()` on a character list: drop leading and trailing
whitespace. -/
def strTrimChars (l : List Char) : List Char :=
  ((l.dropWhile Char.isWhitespace).reverse.dropWhile Char.isWhitespace).reverse

/-- Python's slice `s[:n]` (by characters). -/
def strTake (s : String) (n : Nat) : String :=
  String.mk (s.data.take n)

/-- Python's `sep.join(parts)`. -/
def strIntercalate (sep : String) : List String → String
  | [] => ""
  | x :: xs => xs.foldl (fun acc y => acc ++ sep ++ y) x

/-- The `THEMES` table of `process_diary.py` (declaration order preserved). -/
def THEMES : List (String × List String) :=
  [("science", ["nsf", "nasa", "research", "climate", "weather", "scientist"]),
   ("health", ["cdc", "fda", "nih", "vaccine", "covid", "pandemic", "health", "medical", "hospital"]),
   ("education", ["education", "school", "university", "college", "student", "teacher", "harvard", "columbia"]),
   ("environment", ["epa", "environment", "pollution", "clean", "toxic", "waste", "water", "air"]),
   ("civil-society", ["dei", "diversity", "equity", "inclusion", "civil-rights", "voting", "democracy"]),
   ("human-rights", ["lgbtq", "transgender", "discrimination", "religious", "freedom", "abortion"]),
   ("government", ["federal", "employee", "workforce", "doge", "efficiency", "layoff", "resign"]),
   ("justice", ["fbi", "doj", "court", "judge", "attorney", "prosecutor", "investigation"]),
   ("immigration", ["ice", "deportation", "immigrant", "refugee", "border", "asylum", "visa"]),
   ("trade", ["tariff", "trade", "import", "export", "nafta", "china"]),
   ("economy", ["tax", "budget", "debt", "inflation", "crypto", "bitcoin", "stock", "economy"]),
   ("foreign-affairs", ["ukraine", "russia", "israel", "palestine", "nato", "china", "foreign"])]

/-- The `KEYWORD_PATTERNS` table of `process_diary.py` (declaration order preserved). -/
def KEYWORD_PATTERNS : List (String × List String) :=
  [("doge", ["doge", "efficiency"]),
   ("fbi", ["fbi", "federal bureau"]),
   ("ice", ["ice", "immigration enforcement"]),
   ("epa", ["epa", "environmental protection"]),
   ("cdc", ["cdc", "disease control"]),
   ("nasa", ["nasa", "space"]),
   ("nsf", ["nsf", "national science foundation"]),
   ("nih", ["nih", "health institute"]),
   ("supreme-court", ["supreme court", "scotus"]),
   ("tariffs", ["tariff"]),
   ("ukraine", ["ukraine", "zelensky"]),
   ("russia", ["russia", "putin"]),
   ("israel", ["israel", "gaza", "palestine"]),
   ("musk", ["musk", "elon"]),
   ("rfk-jr", ["rfk", "kennedy jr"]),
   ("hegseth", ["hegseth"]),
   ("harvard", ["harvard"]),
   ("columbia", ["columbia university"]),
   ("voice-of-america", ["voice of america", "voa"]),
   ("peace-corps", ["peace corps"]),
   ("social-security", ["social security", "ssa"]),
   ("veterans", ["veteran", "va "]),
   ("medicare", ["medicare", "medicaid"]),
   ("lgbt", ["lgbt", "transgender", "gay", "lesbian"]),
   ("dei", ["dei", "diversity", "equity", "inclusion"]),
   ("climate", ["climate", "carbon", "emission"]),
   ("covid", ["covid", "coronavirus", "pandemic"]),
   ("abortion", ["abortion", "reproductive"]),
   ("crypto", ["crypto", "bitcoin", "digital currency"])]

/-- The `NewsEntry` dataclass of `process_diary.py`. -/
structure NewsEntry where
  id : Nat
  url : String
  title : String
  date : Option String := none
  themes : List String := []
  keywords : List String := []
  content_snippet : Option String := none
deriving Repr, DecidableEq

/-! ### Date extraction (`DiaryProcessor.extract_date`) -/

/-- Read exactly `n` decimal digits from the front of `l`, returning their
numeric value and the rest. -/
def readDigits : Nat → List Char → Option (Nat × List Char)
  | 0, l => some (0, l)
  | n + 1, c :: l =>
    if c.isDigit then
      (readDigits n l).map fun (v, r) => ((c.toNat - '0'.toNat) * 10 ^ n + v, r)
    else none
  | _ + 1, [] => none

/-- Match a literal character at the front of the input. -/
def lit (c : Char) : List Char → Option (List Char)
  | a :: l => if a = c then some l else none
  | [] => none

/-- Match the regex fragment `(\d{1,2})/` at the front of the input, greedy
as in `re` (two digits tried before one). -/
def digits12Slash (l : List Char) : Option (Nat × List Char) :=
  match (readDigits 2 l).bind fun (v, r) => (lit '/' r).map fun r => (v, r) with
  | some p => some p
  | none => (readDigits 1 l).bind fun (v, r) => (lit '/' r).map fun r => (v, r)

/-- Match `/(\d{4})/(\d{1,2})/(\d{1,2})/` anchored at the front of the input. -/
def matchP1At (l : List Char) : Option (Nat × Nat × Nat) := do
  let r ← lit '/' l
  let (y, r) ← readDigits 4 r
  let r ← lit '/' r
  let (m, r) ← digits12Slash r
  let (d, _) ← digits12Slash r
  pure (y, m, d)

/-- Match `/(\d{4})-(\d{2})-(\d{2})` anchored at the front of the input. -/
def matchP2At (l : List Char) : Option (Nat × Nat × Nat) := do
  let r ← lit '/' l
  let (y, r) ← readDigits 4 r
  let r ← lit '-' r
  let (m, r) ← readDigits 2 r
  let r ← lit '-' r
  let (d, _) ← readDigits 2 r
  pure (y, m, d)

/-- Match `(\d{4})(\d{2})(\d{2})` anchored at the front of the input. -/
def matchP3At (l : List Char) : Option (Nat × Nat × Nat) := do
  let (y, r) ← readDigits 4 l
  let (m, r) ← readDigits 2 r
  let (d, _) ← readDigits 2 r
  pure (y, m, d)

/-- `re.search`: leftmost match of an anchored matcher. -/
def searchAux (m : List Char → Option (Nat × Nat × Nat)) : List Char → Option (Nat × Nat × Nat)
  | [] =>
    match m [] with
    | some g => some g
    | none => none
  | c :: l =>
    match m (c :: l) with
    | some g => some g
    | none => searchAux m l

/-- The plausibility filter of `extract_date`:
`2024 <= year <= 2026 and 1 <= month <= 12 and 1 <= day <= 31`. -/
def dateValid (y m d : Nat) : Bool :=
  2024 ≤ y && y ≤ 2026 && 1 ≤ m && m ≤ 12 && 1 ≤ d && d ≤ 31

/-- Zero-pad a numeral to two digits, as `f"{m:02d}"` for the month/day fields. -/
def pad2 (n : Nat) : String :=
  if n < 10 then "0" ++ toString n else toString n

/-- `f"{year:04d}-{month:02d}-{day:02d}"` (years in range are 4 digits already). -/
def fmtDate (y m d : Nat) : String :=
  toString y ++ "-" ++ pad2 m ++ "-" ++ pad2 d

/-- `DiaryProcessor.extract_date`: try the three URL date patterns in order.
For each pattern the leftmost match is taken; if it passes the plausibility
filter its date is returned, otherwise the loop falls through to the next
pattern. -/
def extract_date (url : String) : Option String :=
  let l := url.data
  match searchAux matchP1At l with
  | some (y, m, d) =>
    if dateValid y m d then some (fmtDate y m d) else
    match searchAux matchP2At l with
    | some (y, m, d) =>
      if dateValid y m d then some (fmtDate y m d) else
      match searchAux matchP3At l with
      | some (y, m, d) => if dateValid y m d then some (fmtDate y m d) else none
      | none => none
    | none =>
      match searchAux matchP3At l with
      | some (y, m, d) => if dateValid y m d then some (fmtDate y m d) else none
      | none => none
  | none =>
    match searchAux matchP2At l with
    | some (y, m, d) =>
      if dateValid y m d then some (fmtDate y m d) else
      match searchAux matchP3At l with
      | some (y, m, d) => if dateValid y m d then some (fmtDate y m d) else none
      | none => none
    | none =>
      match searchAux matchP3At l with
      | some (y, m, d) => if dateValid y m d then some (fmtDate y m d) else none
      | none => none

/-! ### Input parsing (`DiaryProcessor.parse_input_file`) -/

/-- Take a non-empty maximal run of characters satisfying `p` (the
deterministic reading of a greedy `([^x]+)`-style group followed by a
distinct delimiter). -/
def takeWhile1 (p : Char → Bool) (l : List Char) : Option (List Char × List Char) :=
  match l.takeWhile p with
  | [] => none
  | run => some (run, l.drop run.length)

/-- Match a literal string at the front of the input. -/
def lits : List Char → List Char → Option (List Char)
  | [], l => some l
  | c :: cs, l => (lit c l).bind (lits cs)

/-- The line regex of `parse_input_file`,
`^\d+\.\s*<a href="([^"]+)">([^<]+)</a>`, applied to the stripped line.
The greedy groups are deterministic here because each is delimited by a
character it cannot contain. -/
def parseLine (line : String) : Option (String × String) := do
  let l := strTrimChars line.data
  let (_, r) ← takeWhile1 Char.isDigit l
  let r ← lit '.' r
  let r := r.dropWhile Char.isWhitespace
  let r ← lits "<a href=\"".data r
  let (u, r) ← takeWhile1 (fun c => c ≠ '"') r
  let r ← lits "\">".data r
  let (t, r) ← takeWhile1 (fun c => c ≠ '<') r
  let _ ← lits "</a>".data r
  pure (String.mk u, String.mk t)

/-- The numbered loop body of `parse_input_file`
(`for i, line in enumerate(lines, 1)`), starting at line number `i`. -/
def parseLinesFrom : Nat → List String → List NewsEntry
  | _, [] => []
  | i, line :: rest =>
    match parseLine line with
    | some (url, title) =>
      { id := i, url := url, title := title, date := extract_date url } :: parseLinesFrom (i + 1) rest
    | none => parseLinesFrom (i + 1) rest

/-- `DiaryProcessor.parse_input_file`, over the file's list of lines. -/
def parse_input_file (lines : List String) : List NewsEntry :=
  parseLinesFrom 1 lines

/-! ### Domain extraction (`urlparse(url).netloc`) -/

/-- Characters allowed in a URL scheme. -/
def schemeChar (c : Char) : Bool :=
  c.isAlpha || c.isDigit || c = '+' || c = '-' || c = '.'

/-- Drop a leading `scheme:` if the prefix before the first colon is a valid
scheme (non-empty, starts with a letter, scheme characters only). -/
def dropScheme (l : List Char) : List Char :=
  let pre := l.takeWhile (fun c => c ≠ ':')
  if pre.length < l.length && !pre.isEmpty && pre.all schemeChar
      && (pre.headD ' ').isAlpha then
    l.drop (pre.length + 1)
  else l

/-- `urlparse(url).netloc`: after an optional scheme, a `//`-introduced
authority running until the first `/`, `?` or `#`; empty otherwise. -/
def netlocOf (url : String) : String :=
  match dropScheme url.data with
  | '/' :: '/' :: rest =>
    String.mk (rest.takeWhile (fun c => c ≠ '/' && c ≠ '?' && c ≠ '#'))
  | _ => ""

/-! ### Tagging (`DiaryProcessor.tag_entry`, `tag_entry_with_content`) -/

/-- A theme that scored positively, with its taxonomy declaration index. -/
structure ScoredTheme where
  idx : Nat
  name : String
  score : Nat
deriving Repr, DecidableEq

/-- Stable descending insertion by a numeric key: an element is placed before
the first earlier-inserted element whose key is not larger.  -/
def insertDescBy (key : α → Nat) (x : α) : List α → List α
  | [] => [x]
  | a :: t => if key a ≤ key x then x :: a :: t else a :: insertDescBy key x t

/-- Stable sort by descending numeric key.  This is the specification of
Python's `sorted(..., key=..., reverse=True)`, which is a stable sort and
keeps the input order of equal-key elements. -/
def isortDescBy (key : α → Nat) : List α → List α
  | [] => []
  | x :: xs => insertDescBy key x (isortDescBy key xs)

/-- `sum(1 for pattern in patterns if pattern in text)`. -/
def themeScore (text : String) (ps : List String) : Nat :=
  (ps.filter (fun p => strContains text p)).length

/-- The theme-scoring loop of `tag_entry`, iterating the taxonomy from
declaration index `i` and keeping only positive scores. -/
def scoreThemesFrom (text : String) : Nat → List (String × List String) → List ScoredTheme
  | _, [] => []
  | i, (t, ps) :: rest =>
    let s := themeScore text ps
    if 0 < s then ⟨i, t, s⟩ :: scoreThemesFrom text (i + 1) rest
    else scoreThemesFrom text (i + 1) rest

/-- `theme_scores` of `tag_entry`, as a declaration-ordered list. -/
def themeScores (text : String) : List ScoredTheme :=
  scoreThemesFrom text 0 THEMES

/-- Lines 156–164 of `process_diary.py`: positive theme scores, stable
descending sort, top 2. -/
def initialThemes (text : String) : List String :=
  ((isortDescBy ScoredTheme.score (themeScores text)).take 2).map ScoredTheme.name

/-- The keyword loop: a keyword matches when any of its patterns occurs in
the text (the inner `break` makes each keyword appear at most once). -/
def keywordMatches (text : String) : List String :=
  KEYWORD_PATTERNS.filterMap fun kp =>
    if kp.2.any (fun p => strContains text p) then some kp.1 else none

/-- `list(set(xs))`.  Python's set iteration order is hash-dependent; the
keyword names fed to it are pairwise distinct, so the set has exactly the
elements of `xs`; modelled as first-occurrence deduplication. -/
def pySetList (l : List String) : List String := l.dedup

/-- `list(set(keyword_matches))[:3]`. -/
def assignKeywords (text : String) : List String :=
  (pySetList (keywordMatches text)).take 3

/-- `'supreme' in domain or 'scotus' in domain`. -/
def judiciaryMarker (domain : String) : Bool :=
  strContains domain "supreme" || strContains domain "scotus"

/-- The domain-based default of `tag_entry` (lines 177–185). -/
def fallbackThemes (url : String) : List String :=
  let domain := netlocOf url
  if judiciaryMarker domain then ["justice"]
  else if strContains domain ".gov" || strContains domain "whitehouse" then ["government"]
  else ["government"]

/-- `DiaryProcessor.tag_entry`. -/
def tag_entry (e : NewsEntry) : NewsEntry :=
  let text := strLower (e.url ++ " " ++ e.title)
  let themes := initialThemes text
  let keywords := assignKeywords text
  let themes := if themes.isEmpty then fallbackThemes e.url else themes
  { e with themes := themes, keywords := keywords }

/-- The enriched score:
`sum(2 if pattern in content.lower() else 1 for pattern in patterns if pattern in combined_text)`. -/
def enrichedThemeScore (combined contentLower : String) (ps : List String) : Nat :=
  ((ps.filter (fun p => strContains combined p)).map
    (fun p => if strContains contentLower p then 2 else 1)).sum

/-- The theme-scoring loop of `tag_entry_with_content`. -/
def scoreThemesEnrichedFrom (combined contentLower : String) :
    Nat → List (String × List String) → List ScoredTheme
  | _, [] => []
  | i, (t, ps) :: rest =>
    let s := enrichedThemeScore combined contentLower ps
    if 0 < s then ⟨i, t, s⟩ :: scoreThemesEnrichedFrom combined contentLower (i + 1) rest
    else scoreThemesEnrichedFrom combined contentLower (i + 1) rest

/-- `theme_scores` of `tag_entry_with_content`. -/
def enrichedThemeScores (combined contentLower : String) : List ScoredTheme :=
  scoreThemesEnrichedFrom combined contentLower 0 THEMES

/-- `DiaryProcessor.tag_entry_with_content`: re-tag from URL, title and
fetched content.  Note there is no fallback branch here. -/
def tag_entry_with_content (e : NewsEntry) (content : String) : NewsEntry :=
  let combined := strLower (e.url ++ " " ++ e.title ++ " " ++ content)
  let themes :=
    ((isortDescBy ScoredTheme.score (enrichedThemeScores combined (strLower content))).take 2).map
      ScoredTheme.name
  let keywords := (pySetList (keywordMatches combined)).take 3
  { e with themes := themes, keywords := keywords }

/-! ### Enrichment (`fetch_bluesky_content`, `process_bluesky_entries`) -/

/-- Eligibility test used both for enrichment selection (line 222) and for
the Bluesky statistic (line 333): `'bsky.app' in e.url`. -/
def isBlueskyUrl (url : String) : Bool := strContains url "bsky.app"

/-- The effect of one gathered fetch result on its entry (lines 235–239).
`none` models a failed fetch; the Python truthiness test `if content:` also
skips an empty string. -/
def applyFetchResult (e : NewsEntry) (r : Option String) : NewsEntry :=
  match r with
  | some c =>
    if c = "" then e
    else { tag_entry_with_content e c with content_snippet := some c }
  | none => e

/-- `DiaryProcessor.process_bluesky_entries`, with the per-URL fetch results
given by `fetch`: eligible entries are updated from their fetch result, all
other entries are untouched, order is preserved. -/
def process_bluesky_entries (entries : List NewsEntry) (fetch : String → Option String) :
    List NewsEntry :=
  entries.map fun e => if isBlueskyUrl e.url then applyFetchResult e (fetch e.url) else e

/-- The `Bluesky entries` statistic of `print_statistics` (line 333). -/
def blueskyCount (entries : List NewsEntry) : Nat :=
  entries.countP fun e => isBlueskyUrl e.url

/-- Outcome of the one network GET inside `fetch_bluesky_content`:
an exception (timeout, connection error, parse error), or a response with a
status and the result of the content-selector search on its body. -/
inductive NetOutcome where
  | exn
  | response (status : Nat) (extract : Option String)
deriving Repr, DecidableEq

/-- Lookup in the per-URL content cache. -/
def cacheLookup (cache : List (String × String)) (url : String) : Option String :=
  (cache.find? fun p => p.1 = url).map Prod.snd

/-- `DiaryProcessor.fetch_bluesky_content` as a state function over the
cache; returns the fetched content, the new cache, and whether a network
request was issued.  The cache is written only on a successful extraction
(line 211). -/
def fetch_bluesky_content (cache : List (String × String)) (url : String) (net : NetOutcome) :
    Option String × List (String × String) × Bool :=
  match cacheLookup cache url with
  | some c => (some c, cache, false)
  | none =>
    match net with
    | .exn => (none, cache, true)
    | .response status extract =>
      if status = 200 then
        match extract with
        | some c => (some (strTake c 500), (url, strTake c 500) :: cache, true)
        | none => (none, cache, true)
      else (none, cache, true)

/-! ### Summary generation (`summary_generator.py`) -/

/-- One value of the `THEME_INFO` table. -/
structure ThemeInfo where
  title : String
  priority : Nat
  description : String
deriving Repr, DecidableEq

/-- The `THEME_INFO` table of `summary_generator.py`. -/
def THEME_INFO : List (String × ThemeInfo) :=
  [("government", ⟨"Federal Workforce Restructuring and Government Operations", 1,
    "Systematic restructuring of federal agencies, mass layoffs, and the Department of Government Efficiency (DOGE) initiatives"⟩),
   ("immigration", ⟨"Immigration Enforcement and Deportation Operations", 2,
    "Border enforcement, deportation operations, visa policies, and treatment of refugees and asylum seekers"⟩),
   ("science", ⟨"Scientific Research and Space Programs", 3,
    "Changes to NSF, NASA, climate research, and federal research funding"⟩),
   ("health", ⟨"Healthcare Policy and Public Health", 4,
    "CDC policies, vaccine programs, NIH research, and public health infrastructure"⟩),
   ("education", ⟨"Educational Institutions and Academic Freedom", 5,
    "University funding, DEI elimination, student visas, and academic research"⟩),
   ("justice", ⟨"Justice Department and Law Enforcement", 6,
    "DOJ transformation, FBI changes, prosecutorial decisions, and judicial relations"⟩),
   ("economy", ⟨"Economic Policy and Financial Markets", 7,
    "Tax policies, cryptocurrency, stock market regulations, and federal budget"⟩),
   ("trade", ⟨"Trade Policy and Tariffs", 8,
    "Import tariffs, trade agreements, and international commerce"⟩),
   ("foreign-affairs", ⟨"Foreign Policy and International Relations", 9,
    "Relations with allies and adversaries, military aid, and diplomatic initiatives"⟩),
   ("environment", ⟨"Environmental Deregulation and Resource Extraction", 10,
    "EPA changes, climate policy rollbacks, and natural resource exploitation"⟩),
   ("human-rights", ⟨"Civil Rights and Social Policy", 11,
    "LGBTQ+ rights, religious freedom, reproductive rights, and discrimination policies"⟩),
   ("civil-society", ⟨"Democratic Institutions and Civil Society", 12,
    "Voting rights, democratic norms, civil society organizations, and constitutional issues"⟩)]

/-- `THEME_INFO[theme]` as a lookup (`none` models a `KeyError`). -/
def lookupThemeInfo (theme : String) : Option ThemeInfo :=
  (THEME_INFO.find? fun p => p.1 = theme).map Prod.snd

/-- `defaultdict(list)` insertion: append `e` to the group of key `k`,
creating the group at the end on first use (dict insertion order). -/
def addToGroups (gs : List (String × List NewsEntry)) (k : String) (e : NewsEntry) :
    List (String × List NewsEntry) :=
  match gs with
  | [] => [(k, [e])]
  | (k', es) :: rest =>
    if k' = k then (k', es ++ [e]) :: rest else (k', es) :: addToGroups rest k e

/-- The `keyword_groups` construction of `generate_fallback_summary`. -/
def keywordGroups (entries : List NewsEntry) : List (String × List NewsEntry) :=
  entries.foldl (fun gs e => e.keywords.foldl (fun gs k => addToGroups gs k e) gs) []

/-- Python `s.rstrip('; ')`: drop trailing `;` and space characters. -/
def pyRstripSemiSpace (s : String) : String :=
  String.mk (s.data.reverse.dropWhile fun c => c = ';' || c = ' ').reverse

/-- `SummaryGenerator.generate_fallback_summary`.  A theme missing from
`THEME_INFO` raises a `KeyError`, modelled as `Except.error`. -/
def generate_fallback_summary (theme : String) (entries : List NewsEntry) :
    Except String String :=
  match lookupThemeInfo theme with
  | none => .error "KeyError"
  | some info =>
    let groups := keywordGroups entries
    let s1 := "<p>The administration implemented significant changes in "
      ++ strLower info.description ++ ". This section documents "
      ++ toString entries.length ++ " articles tracking these developments.</p>\n\n"
    let s2 :=
      if groups.isEmpty then ""
      else "<p>Key areas of focus included "
        ++ strIntercalate ", "
          (((isortDescBy (fun g => g.2.length) groups).take 3).map fun g =>
            g.1 ++ " (" ++ toString g.2.length ++ " articles)")
        ++ ".</p>\n\n"
    let s3 := "<p>Notable developments included: "
      ++ ((entries.take 5).map fun e =>
          "<a href=\"" ++ e.url ++ "\">" ++ e.title ++ "</a>; ").foldl (fun acc t => acc ++ t) ""
    .ok (pyRstripSemiSpace (s1 ++ s2 ++ s3) ++ ".</p>")

/-- Outcome of the Claude API POST: a response with status and (when the
expected fields parse) the summary text, or a transport-level exception. -/
inductive FetchOutcome where
  | response (status : Nat) (body : Option String)
  | transportError
deriving Repr, DecidableEq

/-- `SummaryGenerator.generate_theme_summary_with_claude`, parameterised by
the configured API key and the API call outcome.  With a key present, the
prompt construction reads `THEME_INFO[theme]` outside the `try`, so an
unknown theme raises; every failure of the call itself falls back to
`generate_fallback_summary`. -/
def generate_theme_summary_with_claude (apiKey : Option String) (outcome : FetchOutcome)
    (theme : String) (entries : List NewsEntry) : Except String String :=
  match apiKey with
  | none => generate_fallback_summary theme entries
  | some _ =>
    match lookupThemeInfo theme with
    | none => .error "KeyError"
    | some _ =>
      match outcome with
      | .transportError => generate_fallback_summary theme entries
      | .response status body =>
        if status = 200 then
          match body with
          | some text => .ok text
          | none => generate_fallback_summary theme entries
        else generate_fallback_summary theme entries

/-! ### Specification-side definitions

Definitions in this section are written from the claims under scrutiny (for
refinement comparisons against the embedded code), together with measuring
helpers and concrete fixtures used by witnesses. -/

/-- Modelled from the claim on date extraction: the first structurally
matching pattern alone decides the result, so a validation failure of that
pattern yields `none` without trying later patterns. -/
def extractDateFirstStructural (url : String) : Option String :=
  let l := url.data
  match searchAux matchP1At l with
  | some (y, m, d) => if dateValid y m d then some (fmtDate y m d) else none
  | none =>
    match searchAux matchP2At l with
    | some (y, m, d) => if dateValid y m d then some (fmtDate y m d) else none
    | none =>
      match searchAux matchP3At l with
      | some (y, m, d) => if dateValid y m d then some (fmtDate y m d) else none
      | none => none

/-- Modelled from the amended date-extraction claim: the three patterns are
tried in order and the first one whose leftmost match passes validation
wins; a pattern that matches but fails validation is skipped in favour of
later patterns; `none` when no pattern yields a validated candidate. -/
def extractDateAmendedSpec (url : String) : Option String :=
  [matchP1At, matchP2At, matchP3At].findSome? fun m =>
    (searchAux m url.data).bind fun g =>
      if dateValid g.1 g.2.1 g.2.2 then some (fmtDate g.1 g.2.1 g.2.2) else none

/-- The 1-based positions of the input lines accepted by the line regex. -/
def parsablePositions (lines : List String) : List Nat :=
  ((lines.enumFrom 1).filter fun p => (parseLine p.2).isSome).map Prod.fst

/-- The claimed order on scored themes: strictly larger score first, equal
scores resolved by taxonomy declaration index. -/
def themeOrder (a b : ScoredTheme) : Prop :=
  b.score < a.score ∨ (a.score = b.score ∧ a.idx < b.idx)

/-- Number of enrichment-eligible entries. -/
def eligibleCount (entries : List NewsEntry) : Nat :=
  entries.countP fun e => isBlueskyUrl e.url

/-- Number of eligible entries whose fetch yields no content. -/
def failedCount (entries : List NewsEntry) (fetch : String → Option String) : Nat :=
  entries.countP fun e => isBlueskyUrl e.url && (fetch e.url).isNone

/-- Number of entries carrying a content snippet. -/
def snippetCount (entries : List NewsEntry) : Nat :=
  entries.countP fun e => e.content_snippet.isSome

/-- Witness fixture: two eligible entries and one ineligible entry. -/
def sampleEntries : List NewsEntry :=
  [{ id := 1, url := "https://bsky.app/profile/x/post/1", title := "tariff news" },
   { id := 2, url := "https://bsky.app/profile/x/post/2", title := "court news" },
   { id := 3, url := "https://example.org/a", title := "other news" }]

/-- Witness fixture: the fetch succeeds for the first sample URL only. -/
def sampleFetch (url : String) : Option String :=
  if url = "https://bsky.app/profile/x/post/1" then some "china trade tariff" else none

/-! ## Theorems -/

theorem parseLinesFrom_map_id (lines : List String) : ∀ i,
    (parseLinesFrom i lines).map NewsEntry.id
      = ((lines.enumFrom i).filter fun p => (parseLine p.2).isSome).map Prod.fst := by
  induction lines with
  | nil => intro i; rfl
  | cons line rest ih =>
    intro i
    cases h : parseLine line with
    | some pr => simp [parseLinesFrom, List.enumFrom, List.filter_cons, h, ih]
    | none => simp [parseLinesFrom, List.enumFrom, List.filter_cons, h, ih]

/-- C1 counterexample: an input whose first line is malformed and whose
second line parses yields exactly one entry, and its id is 2, not 1 — the
skipped line leaves a gap, refuting "an input with k parseable lines yields
entries with ids exactly 1..k". -/
theorem C1_counterexample :
    (parse_input_file ["garbage", "2. <a href=\"https://e.com/x\">T</a>"]).map NewsEntry.id = [2]
    ∧ (parse_input_file ["garbage", "2. <a href=\"https://e.com/x\">T</a>"]).map NewsEntry.id ≠ [1] := by
  exact ⟨rfl, by decide⟩

/-- C1 amended: each produced entry's id equals its 1-based input line
position; malformed/skipped lines still consume positions, so the produced
ids are exactly the 1-based positions of the parseable lines, in increasing
order but possibly with gaps. -/
theorem C1_amended_ids (lines : List String) :
    (parse_input_file lines).map NewsEntry.id = parsablePositions lines :=
  parseLinesFrom_map_id lines 1

/-- C2 counterexample: in the enriched re-tagging pass, an entry whose
combined text matches no theme pattern ends with an empty themes list — the
domain-derived fallback exists only in the initial tagging pass. -/
theorem C2_counterexample :
    enrichedThemeScores
        (strLower ("https://bsky.app/profile/a/post/b" ++ " " ++ "zz" ++ " " ++ "zz"))
        (strLower "zz") = []
    ∧ (tag_entry_with_content
        { id := 1, url := "https://bsky.app/profile/a/post/b", title := "zz",
          themes := ["government"] } "zz").themes = [] :=
  ⟨rfl, rfl⟩

/-- C2 amended: in the initial tagging pass only, if no theme pattern
matches the entry's text the assigned themes list is exactly one non-empty
value derived from the URL's domain — justice for a judiciary-marker
domain, otherwise government; the enriched re-tagging pass has no such
fallback and may leave the themes list empty. -/
theorem C2_amended_fallback (e : NewsEntry)
    (h : themeScores (strLower (e.url ++ " " ++ e.title)) = []) :
    (tag_entry e).themes
      = (if judiciaryMarker (netlocOf e.url) then ["justice"] else ["government"])
    ∧ (tag_entry e).themes.length = 1 ∧ (tag_entry e).themes ≠ [] := by
  have ht : initialThemes (strLower (e.url ++ " " ++ e.title)) = [] := by
    simp [initialThemes, h, isortDescBy]
  have hth : (tag_entry e).themes = fallbackThemes e.url := by
    simp [tag_entry, ht]
  rw [hth]
  unfold fallbackThemes
  by_cases hj : judiciaryMarker (netlocOf e.url)
  · simp [hj]
  · simp only [hj, if_false, Bool.false_eq_true]
    split <;> simp

theorem C2_amended_fallback_witness :
    themeScores (strLower ("https://bsky.app/a" ++ " " ++ "zz")) = []
    ∧ ((tag_entry { id := 1, url := "https://bsky.app/a", title := "zz" }).themes
        = (if judiciaryMarker (netlocOf "https://bsky.app/a") then ["justice"] else ["government"])
      ∧ (tag_entry { id := 1, url := "https://bsky.app/a", title := "zz" }).themes.length = 1
      ∧ (tag_entry { id := 1, url := "https://bsky.app/a", title := "zz" }).themes ≠ []) :=
  ⟨by decide, C2_amended_fallback { id := 1, url := "https://bsky.app/a", title := "zz" } (by decide)⟩

/-- C3 counterexample: on `/1999/01/01/20240102` the first pattern
structurally matches (capturing 1999-01-01, which fails validation), yet
the result is not none: the loop falls through and the third pattern
returns 2024-01-02. -/
theorem C3_counterexample :
    extract_date "/1999/01/01/20240102" = some "2024-01-02"
    ∧ extractDateFirstStructural "/1999/01/01/20240102" = none
    ∧ searchAux matchP1At "/1999/01/01/20240102".data = some (1999, 1, 1)
    ∧ dateValid 1999 1 1 = false :=
  ⟨rfl, rfl, rfl, rfl⟩

/-- C3 amended: the three structural patterns are tried in that order and
the first pattern whose leftmost match passes validation wins; a pattern
that matches but fails validation is skipped in favour of later patterns;
a candidate is accepted only if year is in [2024,2026], month in [1,12] and
day in [1,31]; the result is none when no pattern yields a validated
candidate. -/
theorem C3_amended_order (url : String) :
    extract_date url = extractDateAmendedSpec url
    ∧ ∀ y m d, dateValid y m d = true ↔
        (2024 ≤ y ∧ y ≤ 2026 ∧ 1 ≤ m ∧ m ≤ 12 ∧ 1 ≤ d ∧ d ≤ 31) := by
  constructor
  · unfold extract_date extractDateAmendedSpec
    cases h1 : searchAux matchP1At url.data with
    | some g1 =>
      obtain ⟨y1, m1, d1⟩ := g1
      cases hv1 : dateValid y1 m1 d1 with
      | true => simp [h1, hv1]
      | false =>
        cases h2 : searchAux matchP2At url.data with
        | some g2 =>
          obtain ⟨y2, m2, d2⟩ := g2
          cases hv2 : dateValid y2 m2 d2 with
          | true => simp [h1, hv1, h2, hv2]
          | false =>
            cases h3 : searchAux matchP3At url.data with
            | some g3 =>
              obtain ⟨y3, m3, d3⟩ := g3
              cases hv3 : dateValid y3 m3 d3 <;> simp [h1, hv1, h2, hv2, h3, hv3]
            | none => simp [h1, hv1, h2, hv2, h3]
        | none =>
          cases h3 : searchAux matchP3At url.data with
          | some g3 =>
            obtain ⟨y3, m3, d3⟩ := g3
            cases hv3 : dateValid y3 m3 d3 <;> simp [h1, hv1, h2, h3, hv3]
          | none => simp [h1, hv1, h2, h3]
    | none =>
      cases h2 : searchAux matchP2At url.data with
      | some g2 =>
        obtain ⟨y2, m2, d2⟩ := g2
        cases hv2 : dateValid y2 m2 d2 with
        | true => simp [h1, h2, hv2]
        | false =>
          cases h3 : searchAux matchP3At url.data with
          | some g3 =>
            obtain ⟨y3, m3, d3⟩ := g3
            cases hv3 : dateValid y3 m3 d3 <;> simp [h1, h2, hv2, h3, hv3]
          | none => simp [h1, h2, hv2, h3]
      | none =>
        cases h3 : searchAux matchP3At url.data with
        | some g3 =>
          obtain ⟨y3, m3, d3⟩ := g3
          cases hv3 : dateValid y3 m3 d3 <;> simp [h1, h2, h3, hv3]
        | none => simp [h1, h2, h3]
  · intro y m d
    unfold dateValid
    constructor
    · intro h
      simp only [Bool.and_eq_true, decide_eq_true_eq] at h
      omega
    · intro h
      simp only [Bool.and_eq_true, decide_eq_true_eq]
      omega

theorem insertDescBy_perm (key : α → Nat) (x : α) (l : List α) :
    (insertDescBy key x l).Perm (x :: l) := by
  induction l with
  | nil => exact List.Perm.refl _
  | cons a t ih =>
    unfold insertDescBy
    split
    · exact List.Perm.refl _
    · exact (ih.cons a).trans (List.Perm.swap x a t)

theorem isortDescBy_perm (key : α → Nat) (l : List α) :
    (isortDescBy key l).Perm l := by
  induction l with
  | nil => exact List.Perm.refl _
  | cons x t ih =>
    exact (insertDescBy_perm key x (isortDescBy key t)).trans (ih.cons x)

theorem mem_insertDescBy (key : α → Nat) (x y : α) (l : List α) :
    y ∈ insertDescBy key x l ↔ y = x ∨ y ∈ l := by
  rw [(insertDescBy_perm key x l).mem_iff, List.mem_cons]

theorem insertDescBy_pairwise (x : ScoredTheme) (l : List ScoredTheme)
    (hidx : ∀ a ∈ l, x.idx < a.idx) (hl : l.Pairwise themeOrder) :
    (insertDescBy ScoredTheme.score x l).Pairwise themeOrder := by
  induction l with
  | nil => simp [insertDescBy, themeOrder]
  | cons a t ih =>
    rw [List.pairwise_cons] at hl
    obtain ⟨ha, ht⟩ := hl
    unfold insertDescBy
    split
    case isTrue hle =>
      refine List.pairwise_cons.mpr ⟨?_, List.pairwise_cons.mpr ⟨ha, ht⟩⟩
      intro b hb
      rcases List.mem_cons.mp hb with rfl | hbt
      · rcases Nat.lt_or_ge b.score x.score with hlt | hge
        · exact Or.inl hlt
        · exact Or.inr ⟨Nat.le_antisymm hge hle, hidx b (List.mem_cons_self b t)⟩
      · have hba : b.score < a.score ∨ a.score = b.score := by
          rcases ha b hbt with h | h
          · exact Or.inl h
          · exact Or.inr h.1
        rcases Nat.lt_or_ge b.score x.score with hlt | hge
        · exact Or.inl hlt
        · have hxb : x.score = b.score := by omega
          exact Or.inr ⟨hxb, hidx b (List.mem_cons_of_mem a hbt)⟩
    case isFalse hgt =>
      have hxa : x.score < a.score := by omega
      refine List.pairwise_cons.mpr
        ⟨?_, ih (fun b hb => hidx b (List.mem_cons_of_mem a hb)) ht⟩
      intro b hb
      rcases (mem_insertDescBy ScoredTheme.score x b t).mp hb with rfl | hbt
      · exact Or.inl hxa
      · exact ha b hbt

theorem isortDescBy_pairwise (l : List ScoredTheme)
    (h : l.Pairwise fun a b => a.idx < b.idx) :
    (isortDescBy ScoredTheme.score l).Pairwise themeOrder := by
  induction l with
  | nil => exact List.Pairwise.nil
  | cons x t ih =>
    rw [List.pairwise_cons] at h
    refine insertDescBy_pairwise x _ ?_ (ih h.2)
    intro a ha
    exact h.1 a ((isortDescBy_perm ScoredTheme.score t).mem_iff.mp ha)

theorem mem_scoreThemesFrom (text : String) (l : List (String × List String)) :
    ∀ i x, x ∈ scoreThemesFrom text i l ↔
      ∃ j t ps, l.get? j = some (t, ps) ∧ x.idx = i + j ∧ x.name = t
        ∧ x.score = themeScore text ps ∧ 0 < x.score := by
  induction l with
  | nil => intro i x; simp [scoreThemesFrom]
  | cons hd tl ih =>
    intro i x
    obtain ⟨t, ps⟩ := hd
    by_cases hs : 0 < themeScore text ps
    · simp only [scoreThemesFrom, if_pos hs, List.mem_cons, ih]
      constructor
      · rintro (rfl | ⟨j, t2, ps2, hg, hx, hn, hsc, hpos⟩)
        · exact ⟨0, t, ps, rfl, by simp, rfl, rfl, hs⟩
        · exact ⟨j + 1, t2, ps2, by simpa using hg, by omega, hn, hsc, hpos⟩
      · rintro ⟨j, t2, ps2, hg, hx, hn, hsc, hpos⟩
        cases j with
        | zero =>
          left
          obtain ⟨x1, x2, x3⟩ := x
          obtain ⟨rfl, rfl⟩ : t = t2 ∧ ps = ps2 := by
            simpa [Prod.ext_iff] using hg
          simp only at hx hn hsc
          simp [hx, hn, hsc]
        | succ j =>
          right
          exact ⟨j, t2, ps2, by simpa using hg, by omega, hn, hsc, hpos⟩
    · simp only [scoreThemesFrom, if_neg hs, ih]
      constructor
      · rintro ⟨j, t2, ps2, hg, hx, hn, hsc, hpos⟩
        exact ⟨j + 1, t2, ps2, by simpa using hg, by omega, hn, hsc, hpos⟩
      · rintro ⟨j, t2, ps2, hg, hx, hn, hsc, hpos⟩
        cases j with
        | zero =>
          obtain ⟨rfl, rfl⟩ : t = t2 ∧ ps = ps2 := by
            simpa [Prod.ext_iff] using hg
          rw [hsc] at hpos
          exact absurd hpos hs
        | succ j =>
          exact ⟨j, t2, ps2, by simpa using hg, by omega, hn, hsc, hpos⟩

theorem scoreThemesFrom_idx_le (text : String) (l : List (String × List String)) :
    ∀ i, ∀ x ∈ scoreThemesFrom text i l, i ≤ x.idx := by
  induction l with
  | nil => intro i x hx; simp [scoreThemesFrom] at hx
  | cons hd tl ih =>
    intro i x hx
    obtain ⟨t, ps⟩ := hd
    by_cases hs : 0 < themeScore text ps
    · rw [scoreThemesFrom, if_pos hs] at hx
      rcases List.mem_cons.mp hx with rfl | hx
      · exact Nat.le_refl _
      · exact Nat.le_of_succ_le (ih (i + 1) x hx)
    · rw [scoreThemesFrom, if_neg hs] at hx
      exact Nat.le_of_succ_le (ih (i + 1) x hx)

theorem scoreThemesFrom_pairwise_idx (text : String) (l : List (String × List String)) :
    ∀ i, (scoreThemesFrom text i l).Pairwise fun a b => a.idx < b.idx := by
  induction l with
  | nil => intro i; exact List.Pairwise.nil
  | cons hd tl ih =>
    intro i
    obtain ⟨t, ps⟩ := hd
    by_cases hs : 0 < themeScore text ps
    · rw [scoreThemesFrom, if_pos hs]
      refine List.pairwise_cons.mpr ⟨?_, ih (i + 1)⟩
      intro b hb
      exact Nat.lt_of_succ_le (scoreThemesFrom_idx_le text tl (i + 1) b hb)
    · rw [scoreThemesFrom, if_neg hs]
      exact ih (i + 1)

/-- C4 (confirmed): the initial scoring pass counts, per theme, how many of
its pattern strings occur in the lowercased URL+title (each pattern at most
once), keeps only positive scores, sorts descending by score with ties in
taxonomy declaration order, and assigns the top 2. -/
theorem C4_initial_scoring (url title : String) :
    initialThemes (strLower (url ++ " " ++ title))
      = ((isortDescBy ScoredTheme.score
          (themeScores (strLower (url ++ " " ++ title)))).take 2).map ScoredTheme.name
    ∧ (isortDescBy ScoredTheme.score (themeScores (strLower (url ++ " " ++ title)))).Perm
        (themeScores (strLower (url ++ " " ++ title)))
    ∧ (isortDescBy ScoredTheme.score
        (themeScores (strLower (url ++ " " ++ title)))).Pairwise themeOrder
    ∧ ∀ x, x ∈ themeScores (strLower (url ++ " " ++ title)) ↔
        ∃ j t ps, THEMES.get? j = some (t, ps) ∧ x.idx = j ∧ x.name = t
          ∧ x.score = ps.countP (fun p => strContains (strLower (url ++ " " ++ title)) p)
          ∧ 0 < x.score := by
  refine ⟨rfl, isortDescBy_perm _ _, ?_, ?_⟩
  · exact isortDescBy_pairwise _ (scoreThemesFrom_pairwise_idx _ THEMES 0)
  · intro x
    rw [themeScores, mem_scoreThemesFrom]
    constructor
    · rintro ⟨j, t, ps, hg, hx, hn, hsc, hpos⟩
      refine ⟨j, t, ps, hg, by omega, hn, ?_, hpos⟩
      rw [hsc, themeScore, List.countP_eq_length_filter]
    · rintro ⟨j, t, ps, hg, hx, hn, hsc, hpos⟩
      refine ⟨j, t, ps, hg, by omega, hn, ?_, hpos⟩
      rw [hsc, themeScore, List.countP_eq_length_filter]


/-- C5 (confirmed): the enriched re-tagging pass replaces themes and
keywords entirely: its result does not depend on the entry's prior tags,
and equals the tags freshly recomputed from URL, title and content. -/
theorem C5_replacement (id : Nat) (url title : String) (date cs cs2 : Option String)
    (th kw th2 kw2 : List String) (content : String) :
    (tag_entry_with_content ⟨id, url, title, date, th, kw, cs⟩ content).themes
      = (tag_entry_with_content ⟨id, url, title, date, th2, kw2, cs2⟩ content).themes
    ∧ (tag_entry_with_content ⟨id, url, title, date, th, kw, cs⟩ content).keywords
      = (tag_entry_with_content ⟨id, url, title, date, th2, kw2, cs2⟩ content).keywords
    ∧ (tag_entry_with_content ⟨id, url, title, date, th, kw, cs⟩ content).themes
      = ((isortDescBy ScoredTheme.score
          (enrichedThemeScores (strLower (url ++ " " ++ title ++ " " ++ content))
            (strLower content))).take 2).map ScoredTheme.name
    ∧ (tag_entry_with_content ⟨id, url, title, date, th, kw, cs⟩ content).keywords
      = (pySetList (keywordMatches (strLower (url ++ " " ++ title ++ " " ++ content)))).take 3 :=
  ⟨rfl, rfl, rfl, rfl⟩

/-- C7 (confirmed): after initial tagging and after enriched re-tagging,
themes has length at most 2 and keywords has length at most 3 with no
duplicates. -/
theorem C7_cardinality (e : NewsEntry) (content : String) :
    (tag_entry e).themes.length ≤ 2
    ∧ (tag_entry e).keywords.length ≤ 3 ∧ (tag_entry e).keywords.Nodup
    ∧ (tag_entry_with_content e content).themes.length ≤ 2
    ∧ (tag_entry_with_content e content).keywords.length ≤ 3
    ∧ (tag_entry_with_content e content).keywords.Nodup := by
  have hfb : ∀ u, (fallbackThemes u).length = 1 := by
    intro u
    by_cases hj : judiciaryMarker (netlocOf u) <;> simp [fallbackThemes, hj]
  have htake2 : ∀ l : List ScoredTheme, ((l.take 2).map ScoredTheme.name).length ≤ 2 := by
    intro l
    rw [List.length_map, List.length_take]
    omega
  have hkwlen : ∀ l : List String, ((pySetList l).take 3).length ≤ 3 := by
    intro l
    rw [List.length_take]
    omega
  have hkwnd : ∀ l : List String, ((pySetList l).take 3).Nodup := by
    intro l
    exact (List.take_sublist 3 _).nodup (List.nodup_dedup l)
  have hthemes : (tag_entry e).themes
      = (if (initialThemes (strLower (e.url ++ " " ++ e.title))).isEmpty
          then fallbackThemes e.url
          else initialThemes (strLower (e.url ++ " " ++ e.title))) := rfl
  refine ⟨?_, hkwlen _, hkwnd _, htake2 _, hkwlen _, hkwnd _⟩
  rw [hthemes]
  split
  · rw [hfb e.url]
    omega
  · exact htake2 _

theorem zip_map_pair (f : α → α) (l : List α) :
    ∀ p ∈ l.zip (l.map f), p.2 = f p.1 := by
  induction l with
  | nil => intro p hp; simp at hp
  | cons a t ih =>
    intro p hp
    rw [List.map_cons, List.zip_cons_cons] at hp
    rcases List.mem_cons.mp hp with rfl | hp
    · rfl
    · exact ih p hp

theorem applyFetch_snippet (e : NewsEntry) (r : Option String)
    (hs : e.content_snippet = none) (hne : ∀ c, r = some c → c ≠ "") :
    (applyFetchResult e r).content_snippet.isSome = r.isSome := by
  cases r with
  | none => simp [applyFetchResult, hs]
  | some c =>
    have hc : ¬ (c = "") := hne c rfl
    simp [applyFetchResult, if_neg hc]

theorem processBluesky_count (entries : List NewsEntry) (fetch : String → Option String)
    (h1 : ∀ e ∈ entries, e.content_snippet = none)
    (h2 : ∀ u c, fetch u = some c → c ≠ "") :
    snippetCount (process_bluesky_entries entries fetch)
      + failedCount entries fetch = eligibleCount entries := by
  induction entries with
  | nil => rfl
  | cons e es ih =>
    have he : e.content_snippet = none := h1 e (List.mem_cons_self e es)
    have ihs := ih fun x hx => h1 x (List.mem_cons_of_mem e hx)
    have hhead :
        ((if isBlueskyUrl e.url then applyFetchResult e (fetch e.url) else e).content_snippet.isSome)
          = (isBlueskyUrl e.url && (fetch e.url).isSome) := by
      by_cases hb : isBlueskyUrl e.url
      · rw [if_pos hb, hb, Bool.true_and]
        exact applyFetch_snippet e (fetch e.url) he fun c hc => h2 e.url c hc
      · have hb2 : isBlueskyUrl e.url = false := by simpa using hb
        rw [if_neg hb, hb2, Bool.false_and, he]
        rfl
    simp only [snippetCount, failedCount, eligibleCount, process_bluesky_entries,
      List.map_cons, List.countP_cons] at ihs ⊢
    rw [hhead]
    by_cases hb : isBlueskyUrl e.url
    · rw [hb]
      cases hf : fetch e.url with
      | none =>
        simp only [hf, Option.isSome_none, Option.isNone_none, Bool.and_false, Bool.and_true,
          Bool.true_and, Bool.false_eq_true, if_false, if_true, eq_self_iff_true] at ihs ⊢
        omega
      | some c =>
        simp only [hf, Option.isSome_some, Option.isNone_some, Bool.and_false, Bool.and_true,
          Bool.true_and, Bool.false_eq_true, if_false, if_true, eq_self_iff_true] at ihs ⊢
        omega
    · have hb2 : isBlueskyUrl e.url = false := by simpa using hb
      rw [hb2]
      simp only [Bool.false_and, Bool.false_eq_true, if_false] at ihs ⊢
      omega

/-- C6 (confirmed): with per-URL fetch results given by `fetch` (`none`
models timeout, non-success status, network error or extraction miss), and
assuming successful fetches carry non-empty content, exactly
eligible − failed entries gain a content snippet and are re-tagged, and
every eligible entry whose fetch failed — as well as every ineligible
entry — is returned unchanged. -/
theorem C6_enrichment (entries : List NewsEntry) (fetch : String → Option String)
    (h1 : ∀ e ∈ entries, e.content_snippet = none)
    (h2 : ∀ u c, fetch u = some c → c ≠ "") :
    snippetCount (process_bluesky_entries entries fetch)
      = eligibleCount entries - failedCount entries fetch
    ∧ (process_bluesky_entries entries fetch).length = entries.length
    ∧ ∀ p ∈ entries.zip (process_bluesky_entries entries fetch),
        (isBlueskyUrl p.1.url = false → p.2 = p.1)
        ∧ (fetch p.1.url = none → p.2 = p.1)
        ∧ ∀ c, isBlueskyUrl p.1.url = true → fetch p.1.url = some c →
            p.2 = { tag_entry_with_content p.1 c with content_snippet := some c } := by
  refine ⟨?_, List.length_map _ _, ?_⟩
  · have := processBluesky_count entries fetch h1 h2
    omega
  · intro p hp
    have hpf := zip_map_pair _ entries p hp
    refine ⟨?_, ?_, ?_⟩
    · intro hb
      rw [hpf, if_neg]
      simp [hb]
    · intro hf
      rw [hpf]
      split
      · rw [hf]; rfl
      · rfl
    · intro c hb hf
      have hc : ¬ (c = "") := h2 p.1.url c hf
      rw [hpf, if_pos hb, hf]
      simp [applyFetchResult, if_neg hc]

theorem C6_enrichment_witness :
    (∀ e ∈ sampleEntries, e.content_snippet = none)
    ∧ (∀ u c, sampleFetch u = some c → c ≠ "")
    ∧ (snippetCount (process_bluesky_entries sampleEntries sampleFetch)
        = eligibleCount sampleEntries - failedCount sampleEntries sampleFetch
      ∧ (process_bluesky_entries sampleEntries sampleFetch).length = sampleEntries.length
      ∧ ∀ p ∈ sampleEntries.zip (process_bluesky_entries sampleEntries sampleFetch),
          (isBlueskyUrl p.1.url = false → p.2 = p.1)
          ∧ (sampleFetch p.1.url = none → p.2 = p.1)
          ∧ ∀ c, isBlueskyUrl p.1.url = true → sampleFetch p.1.url = some c →
              p.2 = { tag_entry_with_content p.1 c with content_snippet := some c }) := by
  have hfetch : ∀ u c, sampleFetch u = some c → c ≠ "" := by
    intro u c h
    unfold sampleFetch at h
    split at h
    · cases h; decide
    · cases h
  exact ⟨by decide, hfetch, C6_enrichment sampleEntries sampleFetch (by decide) hfetch⟩

/-- C8 (confirmed): for every taxonomy theme, on a missing API credential,
a non-success API response, or a transport exception, the theme-summary
operation returns (never raises) exactly the deterministic locally
generated fallback summary. -/
theorem C8_summary_fallback (theme : String) (entries : List NewsEntry)
    (apiKey : Option String) (outcome : FetchOutcome)
    (hinfo : (lookupThemeInfo theme).isSome = true)
    (hfail : apiKey = none ∨ outcome = FetchOutcome.transportError
      ∨ ∃ st b, outcome = FetchOutcome.response st b ∧ st ≠ 200) :
    ∃ s, generate_theme_summary_with_claude apiKey outcome theme entries = Except.ok s
      ∧ generate_fallback_summary theme entries = Except.ok s := by
  obtain ⟨info, hi⟩ := Option.isSome_iff_exists.mp hinfo
  have hfb : ∃ s, generate_fallback_summary theme entries = Except.ok s := by
    unfold generate_fallback_summary
    rw [hi]
    exact ⟨_, rfl⟩
  obtain ⟨s, hs⟩ := hfb
  refine ⟨s, ?_, hs⟩
  unfold generate_theme_summary_with_claude
  rcases hfail with rfl | rfl | ⟨st, b, rfl, hne⟩
  · exact hs
  · cases apiKey with
    | none => exact hs
    | some k => rw [hi]; exact hs
  · cases apiKey with
    | none => exact hs
    | some k =>
      rw [hi]
      simp only [if_neg hne]
      exact hs

theorem C8_summary_fallback_witness :
    (lookupThemeInfo "science").isSome = true
    ∧ ∃ s, generate_theme_summary_with_claude none FetchOutcome.transportError "science" []
          = Except.ok s
        ∧ generate_fallback_summary "science" [] = Except.ok s :=
  ⟨rfl, C8_summary_fallback "science" [] none FetchOutcome.transportError rfl (Or.inl rfl)⟩

/-- C9 (confirmed): enrichment eligibility and the Bluesky statistic are
both decided by the literal substring test `bsky.app in url` over the full
URL: a URL carrying `bsky.app` only in its query string is eligible (and
counted) even though its hostname does not contain the marker. -/
theorem C9_substring_eligibility :
    (∀ entries fetch, process_bluesky_entries entries fetch
      = entries.map fun e =>
          if strContains e.url "bsky.app" then applyFetchResult e (fetch e.url) else e)
    ∧ (∀ entries, blueskyCount entries
        = entries.countP fun e => strContains e.url "bsky.app")
    ∧ isBlueskyUrl "https://example.com/post?share=bsky.app" = true
    ∧ netlocOf "https://example.com/post?share=bsky.app" = "example.com"
    ∧ strContains (netlocOf "https://example.com/post?share=bsky.app") "bsky.app" = false
    ∧ (process_bluesky_entries
        [{ id := 1, url := "https://example.com/post?share=bsky.app", title := "t" }]
        (fun _ => some "hello")).map (fun e => e.content_snippet) = [some "hello"]
    ∧ blueskyCount
        [{ id := 1, url := "https://example.com/post?share=bsky.app", title := "t" }] = 1 :=
  ⟨fun _ _ => rfl, fun _ => rfl, rfl, rfl, rfl, rfl, rfl⟩

/-- C10 (confirmed): when the cache has no entry for the URL and the fetch
fails (exception, non-200 status, or no selector match), the fetch returns
none, the cache is unchanged, a network request was issued, and any
subsequent request for the same URL issues a new network request instead of
hitting a cached failure. -/
theorem C10_cache_on_failure (cache : List (String × String)) (url : String) (net : NetOutcome)
    (hmiss : cacheLookup cache url = none)
    (hfail : net = NetOutcome.exn
      ∨ ∃ st ex, net = NetOutcome.response st ex ∧ (st ≠ 200 ∨ ex = none)) :
    (fetch_bluesky_content cache url net).1 = none
    ∧ (fetch_bluesky_content cache url net).2.1 = cache
    ∧ (fetch_bluesky_content cache url net).2.2 = true
    ∧ ∀ net2,
        (fetch_bluesky_content ((fetch_bluesky_content cache url net).2.1) url net2).2.2
          = true := by
  have key : fetch_bluesky_content cache url net = (none, cache, true) := by
    unfold fetch_bluesky_content
    rw [hmiss]
    rcases hfail with rfl | ⟨st, ex, rfl, hbad⟩
    · rfl
    · rcases hbad with hst | rfl
      · simp only [if_neg hst]
      · by_cases h200 : st = 200
        · subst h200; simp
        · simp only [if_neg h200]
  rw [key]
  refine ⟨rfl, rfl, rfl, ?_⟩
  intro net2
  show (fetch_bluesky_content cache url net2).2.2 = true
  unfold fetch_bluesky_content
  rw [hmiss]
  cases net2 with
  | exn => rfl
  | response st ex =>
    by_cases h200 : st = 200
    · subst h200
      cases ex <;> simp
    · simp only [if_neg h200]

theorem C10_cache_on_failure_witness :
    cacheLookup [] "https://bsky.app/x" = none
    ∧ ((fetch_bluesky_content [] "https://bsky.app/x" (NetOutcome.response 404 none)).1 = none
      ∧ (fetch_bluesky_content [] "https://bsky.app/x" (NetOutcome.response 404 none)).2.1 = []
      ∧ (fetch_bluesky_content [] "https://bsky.app/x" (NetOutcome.response 404 none)).2.2 = true
      ∧ ∀ net2,
          (fetch_bluesky_content
            ((fetch_bluesky_content [] "https://bsky.app/x"
              (NetOutcome.response 404 none)).2.1) "https://bsky.app/x" net2).2.2 = true) :=
  ⟨rfl, C10_cache_on_failure [] "https://bsky.app/x" (NetOutcome.response 404 none) rfl
    (Or.inr ⟨404, none, rfl, Or.inl (by decide)⟩)⟩

end Newsy
